import Mathlib

/-!
Verification development for the cita-bot repository (src/new.py).

The Python source is shallowly embedded: pure fragments become Lean
functions, the browser/driver interactions become explicit parameters
(page text, URL, probe results), exceptions become explicit `Except` /
sum-typed results, and the retry loop becomes a structural recursion
over the attempt budget.  Delays are modelled over `ℚ`, with the result
of Python's `random.random()` passed in as a parameter `r ∈ [0, 1)`
(`random.uniform(a, b)` is `a + (b - a) * random()`).
-/

/-- Boolean test that the first list is an initial segment of the second
(used to build the substring test that models Python's `in` operator). -/
def strStarts : List Char → List Char → Bool
  | [], _ => true
  | _ :: _, [] => false
  | a :: as, b :: bs => a == b && strStarts as bs

/-- `strContainsAux needle hay`: some tail of `hay` starts with `needle`. -/
def strContainsAux (needle : List Char) : List Char → Bool
  | [] => needle.isEmpty
  | c :: rest => strStarts needle (c :: rest) || strContainsAux needle rest

/-- Model of Python's `needle in hay` substring test on strings. -/
def strContains (hay needle : String) : Bool :=
  strContainsAux needle.toList hay.toList

/-- Model of Python's `str.lower()` (kernel-reducible, unlike
`String.toLower`). -/
def strLower (s : String) : String := String.mk (s.toList.map Char.toLower)

/-- Model of Python's `str.strip()`. -/
def strTrim (s : String) : String :=
  String.mk ((s.toList.dropWhile Char.isWhitespace).reverse.dropWhile
    Char.isWhitespace |>.reverse)

/-- Embeds `is_request_rejected` (src/new.py:197): the page source is
lowercased and probed for the bot-block markers. -/
def is_request_rejected (pageSource : String) : Bool :=
  let src := strLower pageSource
  strContains src "request rejected" ||
    (strContains src "support id" && strContains src "go back")

/-- Embeds `is_rate_limited_429` (src/new.py:201): the title is stripped
and lowercased, the page source lowercased, and both probed for the
rate-limit markers. -/
def is_rate_limited_429 (title pageSource : String) : Bool :=
  let t := strLower (strTrim title)
  let page := strLower pageSource
  strContains t "429 too many requests" || strContains page "too many requests"

/-- Embeds the outcome computation of `fill_acEntrada_and_submit`
(src/new.py:408-466) from the point where the transition wait has
finished: `transitioned` is the result of `wait_for_transition`, `url`
is `driver.current_url`, `pageSource` and `title` feed the marker
probes, and `btnEnviarFound` records whether `find_element(By.ID,
"btnEnviar")` succeeds on the still-on-acEntrada branch (both of that
branch's arms return `"no_transition"` in the source). -/
def fill_acEntrada_and_submit (transitioned : Bool) (url pageSource title : String)
    (btnEnviarFound : Bool) : String :=
  if transitioned = false then "no_transition"
  else if strContains url "infogenerica" then "timeout"
  else if is_request_rejected pageSource then "rejected"
  else if is_rate_limited_429 title pageSource then "rate_limited"
  else if strContains url "/icpplustieb/acValidarEntrada" then "validate"
  else if strContains url "/icpplustieb/acEntrada" then
    (if btnEnviarFound then "no_transition" else "no_transition")
  else "ok"

/-- Embeds `backoff_sleep` (src/new.py:142-149) over `ℚ`, returning the
computed delay; `r` is the value drawn by `random.random()`, and
`random.uniform(a, b)` is modelled as `a + (b - a) * r`. -/
def backoff_sleep (base cap previous r : ℚ) : ℚ :=
  if previous ≤ 0 then base + r * base
  else min cap (base + (previous * 3 - base) * r)

/-- What one call to `run_complete_flow_once` hands back to the retry
loop in `main` (src/new.py:820): the outcome string and whether the
driver was returned (retained) rather than `None`. -/
structure AttemptResult where
  outcome : String
  driverRetained : Bool
deriving DecidableEq

/-- The loop's success test (src/new.py:823):
`outcome == "success" and driver is not None`. -/
def isSuccessRes (res : AttemptResult) : Bool :=
  res.outcome == "success" && res.driverRetained

/-- What one iteration of the retry loop in `main` does after the
attempt returns: exit on success, sleep a backoff delay (rate limited),
or sleep the short fixed jitter window. -/
inductive IterAct where
  | exitSuccess
  | sleptBackoff (d : ℚ)
  | sleptJitter (d : ℚ)
deriving DecidableEq

/-- Embeds one iteration of the retry loop body (src/new.py:818-843):
on success exit; on `"rate_limited"` sleep `backoff_sleep(base=5.0,
cap=600.0, previous=last_backoff)` and store the delay as the new
`last_backoff`; otherwise sleep `1.0 + random() * 1.5` and leave
`last_backoff` unchanged.  Returns the action taken and the new
`last_backoff`. -/
def loopIter (res : AttemptResult) (r lb : ℚ) : IterAct × ℚ :=
  if isSuccessRes res then (IterAct.exitSuccess, lb)
  else if res.outcome == "rate_limited" then
    (IterAct.sleptBackoff (backoff_sleep 5 600 lb r), backoff_sleep 5 600 lb r)
  else (IterAct.sleptJitter (1 + r * (3 / 2)), lb)

/-- Embeds the retry loop of `main` (src/new.py:817-847):
`mainLoop results rands i rem lb` runs up to `rem` further attempts
starting at attempt index `i` with backoff state `lb`; `results j` is
the outcome of attempt `j` and `rands j` its random draw.  It returns
(number of attempts performed, whether the loop exited on success, the
final backoff state).  A `false` flag with the budget consumed is the
exhaustion report (src/new.py:845-847). -/
def mainLoop (results : Nat → AttemptResult) (rands : Nat → ℚ) :
    Nat → Nat → ℚ → Nat × Bool × ℚ
  | _, 0, lb => (0, false, lb)
  | i, rem + 1, lb =>
    let step := loopIter (results i) (rands i) lb
    if step.1 = IterAct.exitSuccess then (1, true, step.2)
    else
      let rest := mainLoop results rands (i + 1) rem step.2
      (rest.1 + 1, rest.2.1, rest.2.2)

/-- Result of one probe of the remote session: either a value, or a
raised transport error (a `WebDriverException`). -/
inductive Probe (α : Type) where
  | val (a : α)
  | raise
deriving DecidableEq

/-- Result of the `clicked_el.is_enabled()` probe inside the detector:
it returns normally, raises `StaleElementReferenceException`, or raises
some other transport error. -/
inductive EnabledProbe where
  | ok
  | staleExn
  | otherExn
deriving DecidableEq

/-- One polling iteration's view of the session inside
`wait_for_transition` (src/new.py:215-246): the `driver.current_url`
probe, the staleness probe, and the raw `execute_script` DOM-size
probe. -/
structure NavSample where
  curUrl : Probe String
  enabled : EnabledProbe
  domSigRaw : Probe Int
deriving DecidableEq

/-- Embeds `get_dom_signature` (src/new.py:209-213): any raised error is
swallowed and the function returns `-1`. -/
def get_dom_signature : Probe Int → Int
  | Probe.val n => n
  | Probe.raise => -1

/-- Embeds `wait_for_transition` (src/new.py:215-246).  The timeout is
modelled by the finite list of poll samples (one per 0.5 s poll before
`time.time() < end` fails).  `prevUrl` is `prev_url` (`none` for
Python `None`; the source guard `if prev_url and ...` is also false for
the empty string), `hasClickedEl` says whether `clicked_el` was
supplied, `prevSig` is `prev_sig`, `delta` is `DOM_SIG_DELTA`.
`Except.error` means an exception propagated out of the detector:
`driver.current_url` is read outside every `try`, and the staleness
probe catches only `StaleElementReferenceException`, while the DOM
probe's errors are swallowed inside `get_dom_signature` (and by the
surrounding `try`). -/
def wait_for_transition (prevUrl : Option String) (hasClickedEl : Bool)
    (prevSig : Option Int) (delta : Int) : List NavSample → Except Unit Bool
  | [] => Except.ok false
  | ⟨Probe.raise, _, _⟩ :: _ => Except.error ()
  | ⟨Probe.val cur, en, dsig⟩ :: rest =>
    if (match prevUrl with
        | none => false
        | some p => !(p == "") && !(cur == p)) then Except.ok true
    else if hasClickedEl && en == EnabledProbe.staleExn then Except.ok true
    else if hasClickedEl && en == EnabledProbe.otherExn then Except.error ()
    else if (match prevSig with
        | none => false
        | some p => !(get_dom_signature dsig == -1) &&
            decide (delta ≤ |get_dom_signature dsig - p|)) then Except.ok true
    else wait_for_transition prevUrl hasClickedEl prevSig delta rest

/-- Python exception classes relevant to the attempt boundary:
`transport` stands for the caught `(WebDriverException,
TimeoutException)` family (every selenium exception derives from
`WebDriverException`), `runtimeErr` for the `RuntimeError` raised in
`select_last_tramite_and_accept`, which that except-clause does not
match. -/
inductive PyExn where
  | transport
  | runtimeErr
deriving DecidableEq

/-- A computation result: a returned value or a raised exception. -/
inductive Res (α : Type) where
  | val (a : α)
  | exn (e : PyExn)
deriving DecidableEq

/-- What a single step call inside `run_complete_flow_once` can do:
return a value, or raise a selenium (transport) exception.  The steps
other than `select_last_tramite_and_accept` either catch their own
non-selenium errors internally or execute only selenium calls, so
transport errors are the only faults they surface. -/
inductive StepR (α : Type) where
  | val (a : α)
  | transport
deriving DecidableEq

/-- Elaboration of a step result into the general result type. -/
def StepR.toRes : StepR α → Res α
  | StepR.val a => Res.val a
  | StepR.transport => Res.exn PyExn.transport

/-- Embeds `select_last_tramite_and_accept` (src/new.py:372-387) at the
granularity the attempt boundary sees: with `optionCount` options in
the `tramiteGrupo[0]` select, `last_index = optionCount - 1`; if
`last_index <= 0` the function raises `RuntimeError` ("No trámites
available."), otherwise its result is that of the accept click and
transition wait. -/
def select_last_tramite_and_accept (optionCount : Nat) (click : StepR Bool) : Res Bool :=
  if (optionCount : Int) - 1 ≤ 0 then Res.exn PyExn.runtimeErr
  else click.toRes

/-- The environment of one attempt: what each step call and each
post-step page check inside `run_complete_flow_once`
(src/new.py:732-800) yields on this attempt. -/
structure FlowEnv where
  selectProvince : StepR Bool
  rejected1 : Bool
  rateLimited1 : Bool
  tramiteOptionCount : Nat
  tramiteClick : StepR Bool
  rejected2 : Bool
  rateLimited2 : Bool
  acInfoNav : StepR Bool
  infogenerica3 : Bool
  rejected3 : Bool
  rateLimited3 : Bool
  fillResult : StepR String
  consultarWait : StepR Bool
  consultarClick : StepR Bool
  officeSel : StepR Bool
  contactInfo : StepR Bool
  citaSel : StepR Bool
  confirmation : StepR String

/-- How one attempt ends: `result` is the returned `(outcome, driver)`
pair (the Bool records whether the driver was returned rather than
`None`) or a propagating exception; `driverQuit` records whether
`driver.quit()` ran before the attempt function finished. -/
structure FlowExec where
  result : Res (String × Bool)
  driverQuit : Bool
deriving DecidableEq

/-- The attempt boundary (src/new.py:794-800): a transport fault is
caught by `except (WebDriverException, TimeoutException)`, the driver
quit, and `("error", None)` returned; a `RuntimeError` matches no
except-clause, so it propagates with the driver still open. -/
def FlowExec.ofExn : PyExn → FlowExec
  | PyExn.transport => ⟨Res.val ("error", false), true⟩
  | PyExn.runtimeErr => ⟨Res.exn PyExn.runtimeErr, false⟩

/-- Sequencing against the attempt boundary: a raised exception ends the
attempt as `FlowExec.ofExn` says, a value continues. -/
def resSeq (r : Res α) (k : α → FlowExec) : FlowExec :=
  match r with
  | Res.val a => k a
  | Res.exn e => FlowExec.ofExn e

/-- Sequencing of a (transport-only) step call. -/
def stepSeq (s : StepR α) (k : α → FlowExec) : FlowExec :=
  resSeq s.toRes k

/-- Embeds `run_complete_flow_once` (src/new.py:732-800): each failing
step quits the driver and returns its outcome string; the page checks
after steps 1-3 quit and return `"rejected"` / `"rate_limited"` (and
`"timeout"` for the `infogenerica` URL check after step 3); the
personal-info result is returned unless `"ok"`; on a `"success"`
confirmation with `keepOpen` the driver is returned un-quit; transport
faults are handled at the boundary by `FlowExec.ofExn`. -/
def run_complete_flow_once (keepOpen : Bool) (env : FlowEnv) : FlowExec :=
  stepSeq env.selectProvince fun ok1 =>
  if !ok1 then ⟨Res.val ("no_transition", false), true⟩
  else if env.rejected1 then ⟨Res.val ("rejected", false), true⟩
  else if env.rateLimited1 then ⟨Res.val ("rate_limited", false), true⟩
  else resSeq (select_last_tramite_and_accept env.tramiteOptionCount env.tramiteClick) fun ok2 =>
  if !ok2 then ⟨Res.val ("no_transition", false), true⟩
  else if env.rejected2 then ⟨Res.val ("rejected", false), true⟩
  else if env.rateLimited2 then ⟨Res.val ("rate_limited", false), true⟩
  else stepSeq env.acInfoNav fun ok3 =>
  if !ok3 then ⟨Res.val ("no_transition", false), true⟩
  else if env.infogenerica3 then ⟨Res.val ("timeout", false), true⟩
  else if env.rejected3 then ⟨Res.val ("rejected", false), true⟩
  else if env.rateLimited3 then ⟨Res.val ("rate_limited", false), true⟩
  else stepSeq env.fillResult fun fill =>
  if !(fill == "ok") then ⟨Res.val (fill, false), true⟩
  else stepSeq env.consultarWait fun c1 =>
  if !c1 then ⟨Res.val ("no_consultar", false), true⟩
  else stepSeq env.consultarClick fun c2 =>
  if !c2 then ⟨Res.val ("no_consultar_click", false), true⟩
  else stepSeq env.officeSel fun o =>
  if !o then ⟨Res.val ("office_selection_failed", false), true⟩
  else stepSeq env.contactInfo fun ci =>
  if !ci then ⟨Res.val ("contact_info_failed", false), true⟩
  else stepSeq env.citaSel fun cs =>
  if !cs then ⟨Res.val ("cita_selection_failed", false), true⟩
  else stepSeq env.confirmation fun conf =>
  if conf == "success" then
    (if keepOpen then ⟨Res.val ("success", true), false⟩
     else ⟨Res.val ("success", false), true⟩)
  else ⟨Res.val (conf, false), true⟩

/-- The release/propagation contract of one attempt execution, with
`leak` the condition under which the uncaught `RuntimeError` can occur:
transport faults never escape; every normal non-retained return has
quit the driver; a retained driver happens only for `"success"` under
`keepOpen`, without quitting; and an escaping `RuntimeError` implies
`leak` and that the driver was not quit. -/
def ExecOk (keepOpen : Bool) (leak : Prop) (ex : FlowExec) : Prop :=
  ex.result ≠ Res.exn PyExn.transport ∧
  (∀ o, ex.result = Res.val (o, false) → ex.driverQuit = true) ∧
  (∀ o, ex.result = Res.val (o, true) →
    o = "success" ∧ keepOpen = true ∧ ex.driverQuit = false) ∧
  (ex.result = Res.exn PyExn.runtimeErr → leak ∧ ex.driverQuit = false)

/-- A concrete attempt-outcome sequence whose first success is the third
attempt (index 2). -/
def resultsSuccessAt2 : Nat → AttemptResult :=
  fun j => if j = 2 then ⟨"success", true⟩ else ⟨"no_transition", false⟩

/-- Python truthiness of the optional `ANTICAPTCHA_API_KEY` string:
`None` and the empty string are falsy. -/
def pyTruthy : Option String → Bool
  | none => false
  | some s => !(s == "")

/-- The configuration facts `main` consults before entering the retry
loop (src/new.py:802-815): `AUTO_CAPTCHA`, `ANTICAPTCHA_AVAILABLE`, and
`ANTICAPTCHA_API_KEY`. -/
structure MainEnv where
  autoCaptcha : Bool
  anticaptchaAvailable : Bool
  anticaptchaApiKey : Option String

/-- How `main` ends: an early `return` before the retry loop (no
attempt performed, no driver ever started), or a completed loop with
its attempt count and success flag. -/
inductive MainResult where
  | earlyReturn
  | ranLoop (attemptsPerformed : Nat) (succeeded : Bool)
deriving DecidableEq

/-- Attempts performed over the whole entry point: none on the early
return. -/
def MainResult.attempts : MainResult → Nat
  | MainResult.earlyReturn => 0
  | MainResult.ranLoop n _ => n

/-- Embeds `main` (src/new.py:802-847): the two captcha preflight
checks (`AUTO_CAPTCHA and not ANTICAPTCHA_AVAILABLE`, then
`AUTO_CAPTCHA and not ANTICAPTCHA_API_KEY`) each `return` before the
retry loop; otherwise the retry loop runs with `last_backoff = 0.0`. -/
def mainEntry (env : MainEnv) (maxRetries : Nat) (results : Nat → AttemptResult)
    (rands : Nat → ℚ) : MainResult :=
  if env.autoCaptcha && !env.anticaptchaAvailable then MainResult.earlyReturn
  else if env.autoCaptcha && !(pyTruthy env.anticaptchaApiKey) then MainResult.earlyReturn
  else MainResult.ranLoop (mainLoop results rands 0 maxRetries 0).1
    (mainLoop results rands 0 maxRetries 0).2.1

/-- C1 counterexample: a page state whose content matches the bot-block
marker (`is_request_rejected` is true) and whose location contains the
next-step marker `/icpplustieb/acValidarEntrada`, but whose location
also contains `infogenerica`, classifies as `"timeout"`, not
`"rejected"` — the generic-timeout location check runs first in the
source, so the claimed ordering (bot-block before timeout) is false. -/
theorem c1_order_counterexample :
    is_request_rejected "request rejected" = true ∧
    strContains "x/infogenerica/icpplustieb/acValidarEntrada" "/icpplustieb/acValidarEntrada" = true ∧
    fill_acEntrada_and_submit true "x/infogenerica/icpplustieb/acValidarEntrada"
      "request rejected" "" true = "timeout" := by
  refine ⟨by decide, by decide, by decide⟩

/-- C1 (amended): the classification after a detected transition is an
ordered first-match rule list in which the generic-timeout location
check comes first, then the bot-block marker check, then the rate-limit
check, then the next-step success-location check; in particular any
page state matching both the bot-block marker and a next-step location
marker, whose location does not contain the timeout marker, classifies
as `"rejected"`. -/
theorem c1_classifier_order (url pageSource title : String) (btnEnviarFound : Bool) :
    (strContains url "infogenerica" = true →
      fill_acEntrada_and_submit true url pageSource title btnEnviarFound = "timeout") ∧
    (strContains url "infogenerica" = false → is_request_rejected pageSource = true →
      fill_acEntrada_and_submit true url pageSource title btnEnviarFound = "rejected") ∧
    (strContains url "infogenerica" = false → is_request_rejected pageSource = false →
      is_rate_limited_429 title pageSource = true →
      fill_acEntrada_and_submit true url pageSource title btnEnviarFound = "rate_limited") ∧
    (strContains url "infogenerica" = false → is_request_rejected pageSource = false →
      is_rate_limited_429 title pageSource = false →
      strContains url "/icpplustieb/acValidarEntrada" = true →
      fill_acEntrada_and_submit true url pageSource title btnEnviarFound = "validate") := by
  refine ⟨?_, ?_, ?_, ?_⟩ <;> intros <;> simp_all [fill_acEntrada_and_submit]

/-- C1 witness: the amended ordering applied at a concrete page state
matching both the bot-block marker and the next-step location marker
(and not the timeout marker): it classifies as `"rejected"`. -/
theorem c1_classifier_order_witness :
    fill_acEntrada_and_submit true "x/icpplustieb/acValidarEntrada"
      "request rejected" "" true = "rejected" :=
  (c1_classifier_order "x/icpplustieb/acValidarEntrada" "request rejected" "" true).2.1
    (by decide) (by decide)

/-- Helper: the loop iteration exits exactly when the attempt result is
a success with a retained driver. -/
theorem loopIter_fst_exit (res : AttemptResult) (r lb : ℚ) :
    (loopIter res r lb).1 = IterAct.exitSuccess ↔ isSuccessRes res = true := by
  unfold loopIter
  split
  · simp_all
  · split <;> simp_all

/-- Helper: whenever the outcome is not `"rate_limited"`, one loop
iteration leaves the backoff state unchanged. -/
theorem loopIter_snd_frame (res : AttemptResult) (r lb : ℚ)
    (h : res.outcome ≠ "rate_limited") : (loopIter res r lb).2 = lb := by
  unfold loopIter
  split
  · rfl
  · split
    · simp_all
    · rfl

/-- Helper: the loop never performs more attempts than its remaining
budget. -/
theorem mainLoop_le (results : Nat → AttemptResult) (rands : Nat → ℚ) :
    ∀ rem i lb, (mainLoop results rands i rem lb).1 ≤ rem := by
  intro rem
  induction rem with
  | zero => intro i lb; simp [mainLoop]
  | succ n ih =>
    intro i lb
    simp only [mainLoop]
    split
    · simp
    · have h := ih (i + 1) (loopIter (results i) (rands i) lb).2
      omega

/-- Helper: with no successful attempt anywhere, the loop consumes its
whole budget and reports no success. -/
theorem mainLoop_all_fail (results : Nat → AttemptResult) (rands : Nat → ℚ)
    (h : ∀ j, isSuccessRes (results j) = false) :
    ∀ rem i lb, (mainLoop results rands i rem lb).1 = rem ∧
      (mainLoop results rands i rem lb).2.1 = false := by
  intro rem
  induction rem with
  | zero => intro i lb; simp [mainLoop]
  | succ n ih =>
    intro i lb
    simp only [mainLoop]
    split
    · rename_i hex
      rw [loopIter_fst_exit] at hex
      rw [h i] at hex
      cases hex
    · have h2 := ih (i + 1) (loopIter (results i) (rands i) lb).2
      refine ⟨by omega, ?_⟩
      simpa using h2.2

/-- C3: the retry loop of `main` performs at most `maxRetries` attempts;
when every attempt yields a non-success result it performs exactly
`maxRetries` attempts and exits reporting exhaustion (success flag
`false`, the branch that prints the fatal message) — and, being a total
function of the attempt results, it raises no fault. -/
theorem c3_retry_budget (maxRetries : Nat) (results : Nat → AttemptResult)
    (rands : Nat → ℚ) :
    (mainLoop results rands 0 maxRetries 0).1 ≤ maxRetries ∧
    ((∀ j, isSuccessRes (results j) = false) →
      (mainLoop results rands 0 maxRetries 0).1 = maxRetries ∧
      (mainLoop results rands 0 maxRetries 0).2.1 = false) := by
  exact ⟨mainLoop_le results rands maxRetries 0 0,
    fun h => mainLoop_all_fail results rands h maxRetries 0 0⟩

/-- C3 witness: with a budget of 3 and every attempt yielding
`"no_transition"`, exactly 3 attempts run and the loop reports
exhaustion. -/
theorem c3_retry_budget_witness :
    (mainLoop (fun _ => ⟨"no_transition", false⟩) (fun _ => 0) 0 3 0).1 = 3 ∧
    (mainLoop (fun _ => ⟨"no_transition", false⟩) (fun _ => 0) 0 3 0).2.1 = false :=
  (c3_retry_budget 3 (fun _ => ⟨"no_transition", false⟩) (fun _ => 0)).2
    (fun _ => by decide)

/-- C4: the decorrelated-jitter backoff computes the first delay (no
previous delay, `previous <= 0`) as `base + random() * base`, which lies
in `[base, 2 * base]`; every subsequent delay is
`min(cap, uniform(base, previous * 3))`, which — for a previous delay
that is itself at least `base`, with `base ≤ cap` — lies in
`[base, min(cap, 3 * previous)]`; and on a `"rate_limited"` outcome the
controller sleeps exactly that delay and stores it as the new previous
delay. -/
theorem c4_backoff_recurrence (base cap previous r : ℚ) :
    (previous ≤ 0 → backoff_sleep base cap previous r = base + r * base) ∧
    (previous ≤ 0 → 0 ≤ r → r < 1 → 0 ≤ base →
      base ≤ backoff_sleep base cap previous r ∧
      backoff_sleep base cap previous r ≤ 2 * base) ∧
    (0 < previous →
      backoff_sleep base cap previous r = min cap (base + (previous * 3 - base) * r)) ∧
    (0 ≤ r → r < 1 → 0 < base → base ≤ previous → base ≤ cap →
      base ≤ backoff_sleep base cap previous r ∧
      backoff_sleep base cap previous r ≤ min cap (3 * previous)) ∧
    (∀ res : AttemptResult, ∀ lb : ℚ, res.outcome = "rate_limited" →
      loopIter res r lb =
        (IterAct.sleptBackoff (backoff_sleep 5 600 lb r), backoff_sleep 5 600 lb r)) := by
  refine ⟨fun hp => if_pos hp, fun hp hr0 hr1 hb => ?_, fun hp => if_neg (not_le.mpr hp),
    fun hr0 hr1 hb hbp hbc => ?_, fun res lb hres => ?_⟩
  · rw [backoff_sleep, if_pos hp]
    constructor
    · nlinarith
    · nlinarith
  · have hp : ¬ previous ≤ 0 := not_le.mpr (lt_of_lt_of_le hb hbp)
    rw [backoff_sleep, if_neg hp]
    have hu0 : 0 ≤ previous * 3 - base := by linarith
    have hlo : base ≤ base + (previous * 3 - base) * r := by nlinarith
    have hhi : base + (previous * 3 - base) * r ≤ 3 * previous := by nlinarith
    refine ⟨le_min hbc hlo, le_min (min_le_left _ _) (le_trans (min_le_right _ _) hhi)⟩
  · unfold loopIter isSuccessRes
    rw [hres]
    simp

/-- C4 witness: with the controller's constants `base = 5`, `cap = 600`,
previous delay `6` and random draw `1/2`, the emitted delay lies in
`[5, min 600 18]`. -/
theorem c4_backoff_recurrence_witness :
    5 ≤ backoff_sleep 5 600 6 (1/2) ∧ backoff_sleep 5 600 6 (1/2) ≤ min 600 (3 * 6) :=
  (c4_backoff_recurrence 5 600 6 (1/2)).2.2.2.1
    (by norm_num) (by norm_num) (by norm_num) (by norm_num) (by norm_num)

/-- C5 counterexample: at `base = 5`, `cap = 1`, `previous = 0`,
`random() = 0` the emitted delay is `5`, which exceeds the cap — the
first-delay branch of `backoff_sleep` is not clamped to `cap`, so the
claim does not hold for every base/cap/previous combination. -/
theorem c5_cap_counterexample :
    backoff_sleep 5 1 0 0 = 5 ∧ ¬ backoff_sleep 5 1 0 0 ≤ 1 := by
  norm_num [backoff_sleep]

/-- C5 (amended): whenever there is a positive previous delay the
emitted delay is clamped by `min` and hence is at most `cap`; the
uncapped first delay is `base + random() * base ≤ 2 * base`, so it too
is at most `cap` whenever `2 * base ≤ cap` — which holds for the
controller's actual constants `base = 5.0`, `cap = 600.0`. -/
theorem c5_cap_bound (base cap previous r : ℚ) :
    (0 < previous → backoff_sleep base cap previous r ≤ cap) ∧
    (0 ≤ r → r < 1 → 0 ≤ base → 2 * base ≤ cap →
      backoff_sleep base cap previous r ≤ cap) := by
  constructor
  · intro hp
    rw [backoff_sleep, if_neg (not_le.mpr hp)]
    exact min_le_left _ _
  · intro hr0 hr1 hb hbc
    rw [backoff_sleep]
    split
    · nlinarith
    · exact min_le_left _ _

/-- C5 witness: the controller's first backoff call (`base = 5`,
`cap = 600`, `previous = 0`, draw `1/2`) emits a delay at most the
cap. -/
theorem c5_cap_bound_witness : backoff_sleep 5 600 0 (1/2) ≤ 600 :=
  (c5_cap_bound 5 600 0 (1/2)).2 (by norm_num) (by norm_num) (by norm_num) (by norm_num)

/-- C6: the backoff state is mutated only on `"rate_limited"` outcomes:
one loop iteration on any other outcome leaves `last_backoff` unchanged
and, when the outcome is also not a success, sleeps the fixed jitter
window `1.0 + random() * 1.5 ∈ [1, 5/2]`; consequently a whole run of
the retry loop in which no attempt is rate limited never changes (in
particular never resets) the backoff state. -/
theorem c6_backoff_frame :
    (∀ (res : AttemptResult) (r lb : ℚ), res.outcome ≠ "rate_limited" →
      (loopIter res r lb).2 = lb) ∧
    (∀ (res : AttemptResult) (r lb : ℚ), 0 ≤ r → r < 1 →
      res.outcome ≠ "rate_limited" → isSuccessRes res = false →
      ∃ d, (loopIter res r lb).1 = IterAct.sleptJitter d ∧ 1 ≤ d ∧ d ≤ 5 / 2) ∧
    (∀ (results : Nat → AttemptResult) (rands : Nat → ℚ),
      (∀ j, (results j).outcome ≠ "rate_limited") →
      ∀ rem i lb, (mainLoop results rands i rem lb).2.2 = lb) := by
  refine ⟨loopIter_snd_frame, fun res r lb hr0 hr1 hout hsucc => ?_, fun results rands h rem => ?_⟩
  · refine ⟨1 + r * (3 / 2), ?_, by nlinarith, by nlinarith⟩
    unfold loopIter
    rw [hsucc]
    simp only [Bool.false_eq_true, if_false]
    rw [if_neg (by simpa using hout)]
  · induction rem with
    | zero => intro i lb; simp [mainLoop]
    | succ n ih =>
      intro i lb
      simp only [mainLoop]
      rw [loopIter_snd_frame (results i) (rands i) lb (h i)]
      split
      · rfl
      · simpa using ih (i + 1) lb

/-- C6 witness: one iteration on a `"no_transition"` attempt with draw
`1/2` keeps the backoff state at `7` and sleeps a jitter delay in
`[1, 5/2]`. -/
theorem c6_backoff_frame_witness :
    (loopIter ⟨"no_transition", false⟩ (1/2) 7).2 = 7 ∧
    ∃ d, (loopIter ⟨"no_transition", false⟩ (1/2) 7).1 = IterAct.sleptJitter d ∧
      1 ≤ d ∧ d ≤ 5 / 2 :=
  ⟨c6_backoff_frame.1 ⟨"no_transition", false⟩ (1/2) 7 (by decide),
    c6_backoff_frame.2.1 ⟨"no_transition", false⟩ (1/2) 7 (by norm_num) (by norm_num)
      (by decide) (by decide)⟩

/-- C7: the transition detector fires on any single one of its three
signals while the other two stay unchanged — a changed location (with a
captured, non-empty previous location), a stale reference handle, or a
DOM-size signature differing from the captured one by at least the
delta threshold — and returns false when no signal changes in any poll
before the timeout (with a positive threshold, as configured). -/
theorem c7_transition_signals (p : String) (sig delta : Int) (hasEl : Bool) :
    (∀ (cur : String) (rest : List NavSample), p ≠ "" → cur ≠ p →
      wait_for_transition (some p) hasEl (some sig) delta
        (⟨Probe.val cur, EnabledProbe.ok, Probe.val sig⟩ :: rest) = Except.ok true) ∧
    (∀ rest : List NavSample,
      wait_for_transition (some p) true (some sig) delta
        (⟨Probe.val p, EnabledProbe.staleExn, Probe.val sig⟩ :: rest) = Except.ok true) ∧
    (∀ (sig2 : Int) (rest : List NavSample), sig2 ≠ -1 → delta ≤ |sig2 - sig| →
      wait_for_transition (some p) hasEl (some sig) delta
        (⟨Probe.val p, EnabledProbe.ok, Probe.val sig2⟩ :: rest) = Except.ok true) ∧
    (∀ samples : List NavSample, 0 < delta →
      (∀ s ∈ samples, s = ⟨Probe.val p, EnabledProbe.ok, Probe.val sig⟩) →
      wait_for_transition (some p) hasEl (some sig) delta samples = Except.ok false) := by
  refine ⟨fun cur rest hp hcur => ?_, fun rest => ?_, fun sig2 rest hsig hdelta => ?_,
    fun samples hdelta hall => ?_⟩
  · simp only [wait_for_transition]
    simp [hp, hcur]
  · simp only [wait_for_transition]
    simp
  · simp only [wait_for_transition, get_dom_signature]
    rw [if_neg (by simp), if_neg (by simp), if_neg (by simp),
      if_pos (by simp [hsig, hdelta])]
  · induction samples with
    | nil => rfl
    | cons s rest ih =>
      have hs := hall s (List.mem_cons_self s rest)
      have hd : ¬ delta ≤ 0 := by omega
      subst hs
      simp only [wait_for_transition, get_dom_signature]
      rw [if_neg (by simp), if_neg (by simp), if_neg (by simp), if_neg (by simp [hd])]
      exact ih (fun t ht => hall t (List.mem_cons_of_mem _ ht))

/-- C7 witness: the detector fires when only the location changes, and
stays false over two unchanged polls with the default threshold 50. -/
theorem c7_transition_signals_witness :
    wait_for_transition (some "a") false (some 10) 50
      [⟨Probe.val "b", EnabledProbe.ok, Probe.val 10⟩] = Except.ok true ∧
    wait_for_transition (some "a") false (some 10) 50
      [⟨Probe.val "a", EnabledProbe.ok, Probe.val 10⟩,
       ⟨Probe.val "a", EnabledProbe.ok, Probe.val 10⟩] = Except.ok false :=
  ⟨(c7_transition_signals "a" 10 50 false).1 "b" [] (by decide) (by decide),
    (c7_transition_signals "a" 10 50 false).2.2.2
      [⟨Probe.val "a", EnabledProbe.ok, Probe.val 10⟩,
       ⟨Probe.val "a", EnabledProbe.ok, Probe.val 10⟩] (by decide) (by decide)⟩

/-- C8 counterexample: a transport error raised by the
`driver.current_url` probe on the first poll propagates out of the
detector (the read sits outside every `try` in the source), so it is
not the case that every sampling error is swallowed. -/
theorem c8_probe_error_counterexample :
    wait_for_transition (some "a") true (some 100) 50
      [⟨Probe.raise, EnabledProbe.ok, Probe.val 100⟩] = Except.error () := by
  rfl

/-- C8 (amended): errors from the DOM-size probe are swallowed
(`get_dom_signature` turns them into the sentinel `-1`, "signal not yet
available"), and a stale-element error from the handle probe is treated
as the handle no longer resolving; but only those: whenever no poll's
location probe raises and (if a handle was supplied) no poll's handle
probe raises a non-staleness error, no exception propagates out of the
detector — while a location-probe error or a non-staleness handle-probe
error does propagate. -/
theorem c8_probe_error_swallowing (prevUrl : Option String) (hasEl : Bool)
    (prevSig : Option Int) (delta : Int) :
    get_dom_signature Probe.raise = -1 ∧
    (∀ samples : List NavSample,
      (∀ s ∈ samples, s.curUrl ≠ Probe.raise ∧
        (hasEl = true → s.enabled ≠ EnabledProbe.otherExn)) →
      wait_for_transition prevUrl hasEl prevSig delta samples ≠ Except.error ()) := by
  refine ⟨rfl, fun samples hall => ?_⟩
  induction samples with
  | nil => simp [wait_for_transition]
  | cons s rest ih =>
    obtain ⟨hurl, hen⟩ := hall s (List.mem_cons_self s rest)
    obtain ⟨u, en, dsig⟩ := s
    cases u with
    | raise => exact absurd rfl hurl
    | val cur =>
      simp only [wait_for_transition]
      split
      · simp
      · split
        · simp
        · split
          · rename_i hcond
            simp only [Bool.and_eq_true, beq_iff_eq] at hcond
            exact absurd hcond.2 (hen hcond.1)
          · split
            · simp
            · exact ih (fun t ht => hall t (List.mem_cons_of_mem _ ht))

/-- C8 witness: with every location probe returning and the handle probe
raising only staleness, no exception propagates even though the DOM
probe raises on its poll. -/
theorem c8_probe_error_swallowing_witness :
    get_dom_signature Probe.raise = -1 ∧
    wait_for_transition (some "a") true (some 100) 50
      [⟨Probe.val "a", EnabledProbe.staleExn, Probe.raise⟩] ≠ Except.error () :=
  ⟨(c8_probe_error_swallowing (some "a") true (some 100) 50).1,
    (c8_probe_error_swallowing (some "a") true (some 100) 50).2
      [⟨Probe.val "a", EnabledProbe.staleExn, Probe.raise⟩] (by decide)⟩

/-- Helper: a quit-and-return exit satisfies the contract. -/
theorem execOk_leaf (kp : Bool) (leak : Prop) (o : String) :
    ExecOk kp leak ⟨Res.val (o, false), true⟩ := by
  unfold ExecOk
  refine ⟨by simp, by simp, by simp, by simp⟩

/-- Helper: the success-with-retained-driver exit satisfies the contract
when `keepOpen` is set. -/
theorem execOk_success (leak : Prop) :
    ExecOk true leak ⟨Res.val ("success", true), false⟩ := by
  unfold ExecOk
  refine ⟨by simp, by simp, ?_, by simp⟩
  intro o h
  simp only [Res.val.injEq, Prod.mk.injEq] at h
  exact ⟨h.1.symm, rfl, rfl⟩

/-- Helper: sequencing a transport-only step call preserves the
contract (its transport fault is the boundary's quit-and-return-error
exit). -/
theorem execOk_stepSeq {α : Type} (kp : Bool) (leak : Prop) (s : StepR α)
    (k : α → FlowExec) (h : ∀ a, ExecOk kp leak (k a)) :
    ExecOk kp leak (stepSeq s k) := by
  cases s with
  | val a => exact h a
  | transport => exact execOk_leaf kp leak "error"

/-- Helper: sequencing the trámite-selection step preserves the
contract, provided its `RuntimeError` condition implies `leak`. -/
theorem execOk_tramite (kp : Bool) (leak : Prop) (n : Nat) (click : StepR Bool)
    (k : Bool → FlowExec) (hleak : (n : Int) - 1 ≤ 0 → leak)
    (h : ∀ a, ExecOk kp leak (k a)) :
    ExecOk kp leak (resSeq (select_last_tramite_and_accept n click) k) := by
  unfold select_last_tramite_and_accept
  split
  · rename_i hn
    refine ⟨by simp [resSeq, FlowExec.ofExn], by simp [resSeq, FlowExec.ofExn],
      by simp [resSeq, FlowExec.ofExn], fun _ => ⟨hleak hn, rfl⟩⟩
  · exact execOk_stepSeq kp leak click k h

/-- Helper: contract preservation through a two-way branch, with the
branch condition available in each arm. -/
theorem execOk_ite_dep (kp : Bool) (leak : Prop) (b : Bool) (x y : FlowExec)
    (hx : b = true → ExecOk kp leak x) (hy : b = false → ExecOk kp leak y) :
    ExecOk kp leak (if b then x else y) := by
  cases b
  · rw [if_neg (by decide)]
    exact hy rfl
  · rw [if_pos rfl]
    exact hx rfl

/-- C2 counterexample: an attempt in which every step behaves but the
`tramiteGrupo[0]` select has a single option ends with the
`RuntimeError` of `select_last_tramite_and_accept` propagating out of
`run_complete_flow_once` — it is not a transport fault, it is not
caught at the attempt boundary, and the driver is never quit on that
exit path. -/
theorem c2_release_counterexample :
    run_complete_flow_once true
      ⟨StepR.val true, false, false, 1, StepR.val true, false, false,
       StepR.val true, false, false, false, StepR.val "ok", StepR.val true,
       StepR.val true, StepR.val true, StepR.val true, StepR.val true,
       StepR.val "success"⟩ =
      ⟨Res.exn PyExn.runtimeErr, false⟩ := by
  decide

/-- C2 (amended): on every exit path of `run_complete_flow_once` that
returns an outcome, the driver is released unless the outcome is the
retained `"success"` under `keepOpen`; transport faults never escape
(they are caught at the boundary, the driver quit, and `"error"`
returned, folding into retry accounting); the one exception is the
non-transport `RuntimeError` of the no-trámites path (select list of at
most one option), which propagates out of the attempt with the driver
still open. -/
theorem c2_session_release (keepOpen : Bool) (env : FlowEnv) :
    (run_complete_flow_once keepOpen env).result ≠ Res.exn PyExn.transport ∧
    (∀ o, (run_complete_flow_once keepOpen env).result = Res.val (o, false) →
      (run_complete_flow_once keepOpen env).driverQuit = true) ∧
    (∀ o, (run_complete_flow_once keepOpen env).result = Res.val (o, true) →
      o = "success" ∧ keepOpen = true ∧
      (run_complete_flow_once keepOpen env).driverQuit = false) ∧
    ((run_complete_flow_once keepOpen env).result = Res.exn PyExn.runtimeErr →
      (env.tramiteOptionCount : Int) - 1 ≤ 0 ∧
      (run_complete_flow_once keepOpen env).driverQuit = false) := by
  suffices h : ExecOk keepOpen ((env.tramiteOptionCount : Int) - 1 ≤ 0)
      (run_complete_flow_once keepOpen env) from h
  unfold run_complete_flow_once
  refine execOk_stepSeq _ _ _ _ (fun ok1 => ?_)
  refine execOk_ite_dep _ _ _ _ _ (fun _ => execOk_leaf _ _ _) (fun _ => ?_)
  refine execOk_ite_dep _ _ _ _ _ (fun _ => execOk_leaf _ _ _) (fun _ => ?_)
  refine execOk_ite_dep _ _ _ _ _ (fun _ => execOk_leaf _ _ _) (fun _ => ?_)
  refine execOk_tramite _ _ _ _ _ (fun hx => hx) (fun ok2 => ?_)
  refine execOk_ite_dep _ _ _ _ _ (fun _ => execOk_leaf _ _ _) (fun _ => ?_)
  refine execOk_ite_dep _ _ _ _ _ (fun _ => execOk_leaf _ _ _) (fun _ => ?_)
  refine execOk_ite_dep _ _ _ _ _ (fun _ => execOk_leaf _ _ _) (fun _ => ?_)
  refine execOk_stepSeq _ _ _ _ (fun ok3 => ?_)
  refine execOk_ite_dep _ _ _ _ _ (fun _ => execOk_leaf _ _ _) (fun _ => ?_)
  refine execOk_ite_dep _ _ _ _ _ (fun _ => execOk_leaf _ _ _) (fun _ => ?_)
  refine execOk_ite_dep _ _ _ _ _ (fun _ => execOk_leaf _ _ _) (fun _ => ?_)
  refine execOk_ite_dep _ _ _ _ _ (fun _ => execOk_leaf _ _ _) (fun _ => ?_)
  refine execOk_stepSeq _ _ _ _ (fun fill => ?_)
  refine execOk_ite_dep _ _ _ _ _ (fun _ => execOk_leaf _ _ _) (fun _ => ?_)
  refine execOk_stepSeq _ _ _ _ (fun c1 => ?_)
  refine execOk_ite_dep _ _ _ _ _ (fun _ => execOk_leaf _ _ _) (fun _ => ?_)
  refine execOk_stepSeq _ _ _ _ (fun c2 => ?_)
  refine execOk_ite_dep _ _ _ _ _ (fun _ => execOk_leaf _ _ _) (fun _ => ?_)
  refine execOk_stepSeq _ _ _ _ (fun o => ?_)
  refine execOk_ite_dep _ _ _ _ _ (fun _ => execOk_leaf _ _ _) (fun _ => ?_)
  refine execOk_stepSeq _ _ _ _ (fun ci => ?_)
  refine execOk_ite_dep _ _ _ _ _ (fun _ => execOk_leaf _ _ _) (fun _ => ?_)
  refine execOk_stepSeq _ _ _ _ (fun cs => ?_)
  refine execOk_ite_dep _ _ _ _ _ (fun _ => execOk_leaf _ _ _) (fun _ => ?_)
  refine execOk_stepSeq _ _ _ _ (fun conf => ?_)
  refine execOk_ite_dep _ _ _ _ _ (fun _ => ?_) (fun _ => execOk_leaf _ _ _)
  refine execOk_ite_dep _ _ _ _ _ (fun hkp => ?_) (fun _ => execOk_leaf _ _ _)
  rw [hkp]
  exact execOk_success _

/-- C2 witness: the release contract applied at the single-option
trámite environment — the escaping fault is exactly the no-trámites
`RuntimeError` condition, with the driver not quit. -/
theorem c2_session_release_witness :
    (((1 : Nat) : Int) - 1 ≤ 0) ∧
    (run_complete_flow_once true
      ⟨StepR.val true, false, false, 1, StepR.val true, false, false,
       StepR.val true, false, false, false, StepR.val "ok", StepR.val true,
       StepR.val true, StepR.val true, StepR.val true, StepR.val true,
       StepR.val "success"⟩).driverQuit = false := by
  have h := (c2_session_release true
      ⟨StepR.val true, false, false, 1, StepR.val true, false, false,
       StepR.val true, false, false, false, StepR.val "ok", StepR.val true,
       StepR.val true, StepR.val true, StepR.val true, StepR.val true,
       StepR.val "success"⟩).2.2.2 (by decide)
  exact ⟨h.1, h.2⟩

/-- Helper: on a successful attempt the loop iteration is exactly the
exit action with an unchanged backoff state. -/
theorem loopIter_success (res : AttemptResult) (r lb : ℚ)
    (h : isSuccessRes res = true) :
    loopIter res r lb = (IterAct.exitSuccess, lb) := by
  unfold loopIter
  rw [if_pos h]

/-- Helper: when the first success is at offset `k` from the current
index and the budget still covers it, the loop performs exactly `k + 1`
attempts and reports success. -/
theorem mainLoop_first_success (results : Nat → AttemptResult) (rands : Nat → ℚ) :
    ∀ (k i rem : Nat) (lb : ℚ),
      (∀ j, j < k → isSuccessRes (results (i + j)) = false) →
      isSuccessRes (results (i + k)) = true → k < rem →
      (mainLoop results rands i rem lb).1 = k + 1 ∧
      (mainLoop results rands i rem lb).2.1 = true := by
  intro k
  induction k with
  | zero =>
    intro i rem lb hlt hsucc hk
    obtain ⟨m, rfl⟩ : ∃ m, rem = m + 1 := ⟨rem - 1, by omega⟩
    have hexit : loopIter (results i) (rands i) lb = (IterAct.exitSuccess, lb) :=
      loopIter_success _ _ _ (by simpa using hsucc)
    simp [mainLoop, hexit]
  | succ k ih =>
    intro i rem lb hlt hsucc hk
    obtain ⟨m, rfl⟩ : ∃ m, rem = m + 1 := ⟨rem - 1, by omega⟩
    have hfail : isSuccessRes (results i) = false := by
      simpa using hlt 0 (Nat.succ_pos k)
    have hnexit : ¬ (loopIter (results i) (rands i) lb).1 = IterAct.exitSuccess := by
      rw [loopIter_fst_exit]
      simp [hfail]
    have hrest := ih (i + 1) m ((loopIter (results i) (rands i) lb).2)
      (fun j hj => by
        have hx := hlt (j + 1) (by omega)
        simpa [show i + (j + 1) = i + 1 + j by omega] using hx)
      (by simpa [show i + (k + 1) = i + 1 + k by omega] using hsucc)
      (by omega)
    simp only [mainLoop]
    rw [if_neg hnexit]
    exact ⟨by simpa using hrest.1, by simpa using hrest.2⟩

/-- C9: when an attempt succeeds, the session is retained and handed to
the caller — on the all-steps-succeed environment,
`run_complete_flow_once` with `keep_open_on_success` returns
`("success", driver)` without quitting the driver — and the retry loop
stops at that attempt: an immediate success ends the loop after exactly
one more attempt whatever budget remains, and a first success at
attempt index `k` ends the whole loop after `k + 1` attempts with the
rest of the budget unconsumed. -/
theorem c9_success_retains_session :
    (run_complete_flow_once true
      ⟨StepR.val true, false, false, 3, StepR.val true, false, false,
       StepR.val true, false, false, false, StepR.val "ok", StepR.val true,
       StepR.val true, StepR.val true, StepR.val true, StepR.val true,
       StepR.val "success"⟩ =
      ⟨Res.val ("success", true), false⟩) ∧
    (∀ (results : Nat → AttemptResult) (rands : Nat → ℚ) (i rem : Nat) (lb : ℚ),
      isSuccessRes (results i) = true →
      mainLoop results rands i (rem + 1) lb = (1, true, lb)) ∧
    (∀ (results : Nat → AttemptResult) (rands : Nat → ℚ) (rem k : Nat) (lb : ℚ),
      (∀ j, j < k → isSuccessRes (results j) = false) →
      isSuccessRes (results k) = true → k < rem →
      (mainLoop results rands 0 rem lb).1 = k + 1 ∧
      (mainLoop results rands 0 rem lb).2.1 = true) := by
  refine ⟨by decide, fun results rands i rem lb hsucc => ?_,
    fun results rands rem k lb hlt hsucc hk => ?_⟩
  · have hexit : loopIter (results i) (rands i) lb = (IterAct.exitSuccess, lb) :=
      loopIter_success _ _ _ hsucc
    simp [mainLoop, hexit]
  · exact mainLoop_first_success results rands k 0 rem lb
      (fun j hj => by simpa using hlt j hj) (by simpa using hsucc) hk

/-- C9 witness: with success first occurring at attempt index 2 and a
budget of 5, the loop performs exactly 3 attempts and reports success,
leaving the remaining budget unconsumed. -/
theorem c9_success_retains_session_witness :
    (mainLoop resultsSuccessAt2 (fun _ => 0) 0 5 0).1 = 2 + 1 ∧
    (mainLoop resultsSuccessAt2 (fun _ => 0) 0 5 0).2.1 = true :=
  c9_success_retains_session.2.2 resultsSuccessAt2 (fun _ => 0) 5 2 0
    (fun j hj => by interval_cases j <;> decide) (by decide) (by decide)

/-- C10: with `AUTO_CAPTCHA` true and either the captcha backend
library unavailable or the API key missing (unset or empty), `main`
returns before the retry loop: zero attempts are performed, and since
only the loop body calls `run_complete_flow_once` (which is what starts
a driver), no session is ever acquired. -/
theorem c10_captcha_preflight (env : MainEnv) (maxRetries : Nat)
    (results : Nat → AttemptResult) (rands : Nat → ℚ)
    (hauto : env.autoCaptcha = true)
    (hmiss : env.anticaptchaAvailable = false ∨ pyTruthy env.anticaptchaApiKey = false) :
    mainEntry env maxRetries results rands = MainResult.earlyReturn ∧
    (mainEntry env maxRetries results rands).attempts = 0 := by
  have h : mainEntry env maxRetries results rands = MainResult.earlyReturn := by
    rcases hmiss with h | h
    · simp [mainEntry, hauto, h]
    · cases hA : env.anticaptchaAvailable <;> simp [mainEntry, hauto, h, hA]
  exact ⟨h, by rw [h]; rfl⟩

/-- C10 witness: `AUTO_CAPTCHA` on, the backend importable, but no API
key set — `main` returns early with zero attempts. -/
theorem c10_captcha_preflight_witness :
    mainEntry ⟨true, true, none⟩ 500 (fun _ => ⟨"no_transition", false⟩) (fun _ => 0) =
      MainResult.earlyReturn ∧
    (mainEntry ⟨true, true, none⟩ 500 (fun _ => ⟨"no_transition", false⟩)
      (fun _ => 0)).attempts = 0 :=
  c10_captcha_preflight ⟨true, true, none⟩ 500 (fun _ => ⟨"no_transition", false⟩)
    (fun _ => 0) rfl (Or.inr rfl)
